import Mathlib

/-!
Verification of `manufacturers_alphavantage.py`.

The script defines a single function `get_financials(api_key, symbol)` that
builds a fixed query URL with three parameters, issues one HTTP GET via
`requests.get`, decodes the response body as JSON via `response.json()`, and
returns the decoded value.  Module scope then runs a demo invocation binding
the module-level global `financials`.

We embed the script shallowly: JSON values are an inductive type, the HTTP
layer (`requests`) is an oracle mapping a structured request to either a
network failure or a response, and `get_financials` is translated line by
line, returning both its result and the trace of outbound requests it issued.
-/

/-- JSON values, the type of decoded response bodies (`response.json()`). -/
inductive Json where
  | null
  | bool (b : Bool)
  | num (n : Int)
  | str (s : String)
  | arr (elems : List Json)
  | obj (fields : List (String × Json))

/-- Network-level failures of the underlying HTTP primitive
(`requests.get` raising, e.g. `requests.exceptions.ConnectionError`). -/
inductive NetErr where
  | connectionRefused
  | dnsFailure
  | timeout
  | other (msg : String)
deriving DecidableEq

/-- Failures `get_financials` can propagate: a network failure from the GET
itself, or a JSON decoding failure from `response.json()`. -/
inductive FetchErr where
  | network (e : NetErr)
  | decode (msg : String)
deriving DecidableEq

/-- An outbound HTTP GET request: the target URL plus the query parameters
passed as a key-value mapping (the `params=` argument of `requests.get`). -/
structure Request where
  url : String
  params : List (String × String)
deriving DecidableEq

/-- An HTTP response: a status code and the result of decoding the body as
JSON (`.ok v` when the body decodes to `v`, `.error msg` when the body is not
valid JSON, in which case `response.json()` raises). -/
structure Response where
  status : Nat
  jsonBody : Except String Json

/-- The behaviour of the HTTP layer: each request either fails at the network
level or yields a response. -/
structure HttpWorld where
  http : Request → Except NetErr Response

/-- Model of `requests.get(url, params=params)`: consult the HTTP layer once
and record the single outbound request in the trace (the request is issued,
and hence traced, whether it succeeds or fails). -/
def requests_get (w : HttpWorld) (url : String) (params : List (String × String)) :
    Except NetErr Response × List Request :=
  (w.http ⟨url, params⟩, [⟨url, params⟩])

/-- Translation of `get_financials(api_key, symbol)` (lines 3-12 of the
source): build the fixed base URL and the three-entry params dict in source
order, issue one GET, decode the body, return the decoded data.  The second
component is the trace of outbound requests issued by the call. -/
def get_financials (w : HttpWorld) (api_key symbol : String) :
    Except FetchErr Json × List Request :=
  let base_url := "https://www.alphavantage.co/query"
  let params := [("function", "INCOME_STATEMENT"), ("symbol", symbol), ("apikey", api_key)]
  let getResult := requests_get w base_url params
  match getResult.1 with
  | .error e => (.error (.network e), getResult.2)
  | .ok response =>
    match response.jsonBody with
    | .error msg => (.error (.decode msg), getResult.2)
    | .ok data => (.ok data, getResult.2)

/-- The module-level globals bound by the demo code at the bottom of the
source (lines 15-17). -/
structure ModuleState where
  api_key : String
  company_symbol : String
  financials : Except FetchErr Json

/-- Importing or loading the module executes lines 15-17 at module scope:
bind the placeholder credential and the sample ticker, then call
`get_financials` unconditionally (there is no main-entry guard), binding the
result to the global `financials`.  Returns the resulting module state and
the trace of outbound requests issued during the load. -/
def load_module (w : HttpWorld) : ModuleState × List Request :=
  let api_key := "your_alpha_vantage_api_key"
  let company_symbol := "HON"
  let callResult := get_financials w api_key company_symbol
  ({ api_key := api_key, company_symbol := company_symbol, financials := callResult.1 },
    callResult.2)

/-- The exact request `get_financials` sends for a given key and symbol. -/
def mkRequest (api_key symbol : String) : Request :=
  { url := "https://www.alphavantage.co/query"
    params := [("function", "INCOME_STATEMENT"), ("symbol", symbol), ("apikey", api_key)] }

/-- An HTTP layer that answers every request with the given status and
decoded body. -/
def constWorld (status : Nat) (body : Except String Json) : HttpWorld :=
  ⟨fun _ => .ok ⟨status, body⟩⟩

/-- An HTTP layer whose every request fails at the network level. -/
def failWorld (e : NetErr) : HttpWorld :=
  ⟨fun _ => .error e⟩

/-- The mock payload of the concrete test scenario:
`{"symbol": "HON", "annualReports": []}`. -/
def honPayload : Json :=
  .obj [("symbol", .str "HON"), ("annualReports", .arr [])]

/-- A mock of the remote API invalid-key error payload:
`{"Error Message": "Invalid API call"}`. -/
def invalidKeyPayload : Json :=
  .obj [("Error Message", .str "Invalid API call")]


/-- Helper: a call to `get_financials` is exactly one consultation of the HTTP
layer at the fixed request, with the network / decode outcomes mapped to the
corresponding errors, and the trace holds that single request. -/
theorem get_financials_eq (w : HttpWorld) (api_key symbol : String) :
    get_financials w api_key symbol = ((match w.http (mkRequest api_key symbol) with | .error e => .error (.network e) | .ok response => (match response.jsonBody with | .error msg => .error (.decode msg) | .ok data => .ok data)), [mkRequest api_key symbol]) := by
  simp only [get_financials, requests_get, mkRequest]
  cases hh : w.http ⟨"https://www.alphavantage.co/query", [("function", "INCOME_STATEMENT"), ("symbol", symbol), ("apikey", api_key)]⟩ with
  | error e => simp [hh]
  | ok response =>
    simp only [hh]
    cases hb : response.jsonBody <;> simp [hb]

/-- Helper: whatever the HTTP layer does (success, decode failure, network
failure), a call to `get_financials` issues exactly the one fixed request. -/
theorem get_financials_trace (w : HttpWorld) (api_key symbol : String) :
    (get_financials w api_key symbol).2 = [mkRequest api_key symbol] := by
  rw [get_financials_eq]

/-- Claim C1: if the HTTP layer answers the request of `get_financials` with a
response whose body decodes to the JSON value `V`, then `get_financials`
returns exactly `V`, with no transformation, filtering, or wrapping. -/
theorem get_financials_returns_decoded_body (w : HttpWorld) (api_key symbol : String)
    (resp : Response) (V : Json)
    (hget : w.http (mkRequest api_key symbol) = .ok resp)
    (hbody : resp.jsonBody = .ok V) :
    (get_financials w api_key symbol).1 = .ok V := by
  rw [get_financials_eq]
  simp [hget, hbody]

/-- Witness for Claim C1: `get_financials("TESTKEY", "HON")` against a mock
returning `{"symbol": "HON", "annualReports": []}` returns exactly that
object. -/
theorem get_financials_returns_decoded_body_witness :
    (get_financials (constWorld 200 (.ok honPayload)) "TESTKEY" "HON").1 = .ok honPayload :=
  get_financials_returns_decoded_body _ _ _ ⟨200, .ok honPayload⟩ honPayload rfl rfl

/-- Claim C2: every request issued by `get_financials` targets the fixed base
endpoint and carries exactly the three query parameters `function` (the fixed
selector `INCOME_STATEMENT`), `symbol` (the given symbol) and `apikey` (the
given key), in that order, and nothing else. -/
theorem get_financials_request_shape (w : HttpWorld) (api_key symbol : String)
    (r : Request) (hr : r ∈ (get_financials w api_key symbol).2) :
    r.url = "https://www.alphavantage.co/query" ∧
      r.params = [("function", "INCOME_STATEMENT"), ("symbol", symbol), ("apikey", api_key)] := by
  rw [get_financials_trace] at hr
  rcases List.mem_singleton.mp hr with rfl
  exact ⟨rfl, rfl⟩

/-- Witness for Claim C2, instantiated at a concrete mock world and concrete
inputs. -/
theorem get_financials_request_shape_witness :
    (mkRequest "TESTKEY" "IBM").url = "https://www.alphavantage.co/query" ∧
      (mkRequest "TESTKEY" "IBM").params
        = [("function", "INCOME_STATEMENT"), ("symbol", "IBM"), ("apikey", "TESTKEY")] :=
  get_financials_request_shape (constWorld 200 (.ok .null)) "TESTKEY" "IBM"
    (mkRequest "TESTKEY" "IBM")
    (by rw [get_financials_trace]; exact List.mem_singleton.mpr rfl)

/-- Claim C3: `get_financials` never inspects the HTTP status code or the
semantics of the decoded payload: for every status (2xx or not) and every
decodable body `V` (including remote-reported error objects such as the
`invalidKeyPayload` mock), it returns `V` unchanged rather than raising or
distinguishing it from a success payload. -/
theorem get_financials_ignores_status (status : Nat) (V : Json) (api_key symbol : String) :
    (get_financials (constWorld status (.ok V)) api_key symbol).1 = .ok V := by
  rw [get_financials_eq]
  simp [constWorld]

/-- Claim C4: if the HTTP layer yields a response whose body is not valid JSON
(its decoding fails with message `msg`), `get_financials` propagates exactly
that decoding error; it never returns a partial, default, or null value. -/
theorem get_financials_propagates_decode_error (w : HttpWorld) (api_key symbol : String)
    (resp : Response) (msg : String)
    (hget : w.http (mkRequest api_key symbol) = .ok resp)
    (hbody : resp.jsonBody = .error msg) :
    (get_financials w api_key symbol).1 = .error (.decode msg) := by
  rw [get_financials_eq]
  simp [hget, hbody]

/-- Witness for Claim C4: a mock returning a non-JSON body makes the call fail
with exactly the decoding error. -/
theorem get_financials_propagates_decode_error_witness :
    (get_financials
        (constWorld 200 (.error "Expecting value: line 1 column 1 (char 0)"))
        "TESTKEY" "HON").1
      = .error (.decode "Expecting value: line 1 column 1 (char 0)") :=
  get_financials_propagates_decode_error _ _ _
    ⟨200, .error "Expecting value: line 1 column 1 (char 0)"⟩
    "Expecting value: line 1 column 1 (char 0)" rfl rfl

/-- Claim C5: if the HTTP GET itself fails at the network level (connection
refused, DNS failure, timeout), the failure is propagated to the caller
unchanged, with no retry (the trace holds only the one attempted request), no
added context, and no default value. -/
theorem get_financials_propagates_network_failure (w : HttpWorld) (api_key symbol : String)
    (e : NetErr) (hget : w.http (mkRequest api_key symbol) = .error e) :
    get_financials w api_key symbol = (.error (.network e), [mkRequest api_key symbol]) := by
  rw [get_financials_eq]
  simp [hget]

/-- Witness for Claim C5: a connection-refused HTTP layer makes the call fail
with exactly that network failure after one attempt. -/
theorem get_financials_propagates_network_failure_witness :
    get_financials (failWorld .connectionRefused) "TESTKEY" "HON"
      = (.error (.network .connectionRefused), [mkRequest "TESTKEY" "HON"]) :=
  get_financials_propagates_network_failure _ _ _ .connectionRefused rfl

/-- Claim C6: every invocation of `get_financials` issues exactly one outbound
HTTP GET, never zero and never more than one, whatever the HTTP layer answers
(success, decode failure or network failure); in the embedding the call is a
pure function of its inputs and the HTTP layer, with no state to mutate. -/
theorem get_financials_exactly_one_get (w : HttpWorld) (api_key symbol : String) :
    (get_financials w api_key symbol).2.length = 1 := by
  rw [get_financials_trace]
  rfl

/-- Claim C7: `get_financials` performs no client-side validation: for every
string `api_key` and `symbol`, including the empty string and ill-formed
values, the network call is reached (the trace is the non-empty singleton)
and the supplied values are forwarded verbatim as the `apikey` and `symbol`
query-parameter values. -/
theorem get_financials_no_input_validation (w : HttpWorld) (api_key symbol : String) :
    (get_financials w api_key symbol).2.map Request.params
      = [[("function", "INCOME_STATEMENT"), ("symbol", symbol), ("apikey", api_key)]] := by
  rw [get_financials_trace]
  rfl

/-- Claim C8: `get_financials` is stateless and deterministic in its inputs
and the HTTP layer's behaviour: two invocations with equal `(api_key, symbol)`
against HTTP layers yielding equal responses produce equal results and equal
traces, with no hidden state carried between calls. -/
theorem get_financials_deterministic (w1 w2 : HttpWorld) (api_key symbol : String)
    (hext : ∀ r, w1.http r = w2.http r) :
    get_financials w1 api_key symbol = get_financials w2 api_key symbol := by
  simp only [get_financials_eq, hext]

/-- Witness for Claim C8: two syntactically different but equally behaving
HTTP layers give equal call results. -/
theorem get_financials_deterministic_witness :
    get_financials (constWorld 200 (.ok honPayload)) "TESTKEY" "HON"
      = get_financials ⟨fun _ => .ok ⟨100 + 100, .ok honPayload⟩⟩ "TESTKEY" "HON" :=
  get_financials_deterministic _ _ _ _ (fun _ => rfl)

/-- Claim C9: loading the module executes the demo at module scope: for every
HTTP layer it issues exactly one GET carrying the hardcoded placeholder
credential and the symbol HON, and binds the module-level globals, in
particular `financials` to the result of that call; nothing guards the demo
behind a main-entry check. -/
theorem module_load_runs_demo (w : HttpWorld) :
    (load_module w).2 = [mkRequest "your_alpha_vantage_api_key" "HON"] ∧
      (load_module w).1.api_key = "your_alpha_vantage_api_key" ∧
      (load_module w).1.company_symbol = "HON" ∧
      (load_module w).1.financials = (get_financials w "your_alpha_vantage_api_key" "HON").1 :=
  ⟨get_financials_trace w "your_alpha_vantage_api_key" "HON", rfl, rfl, rfl⟩

/-- Claim C10: the query parameters reach the HTTP layer as a structured
key-value mapping, never as a concatenated URL string, so arbitrary `api_key`
and `symbol` values (in particular ones containing reserved characters such
as ampersand, equals sign or question mark) cannot inject additional query
parameters: the single request carries exactly three parameters whose keys
are fixed and whose values equal the supplied strings verbatim. -/
theorem params_mapping_prevents_injection (w : HttpWorld) (api_key symbol : String) :
    ∃ r, (get_financials w api_key symbol).2 = [r] ∧
      r.params.length = 3 ∧
      r.params.map Prod.fst = ["function", "symbol", "apikey"] ∧
      r.params.map Prod.snd = ["INCOME_STATEMENT", symbol, api_key] :=
  ⟨mkRequest api_key symbol, get_financials_trace w api_key symbol, rfl, rfl, rfl⟩
